import Mathlib

/-!
Verification of the purser hardware-wallet signing pipeline.

The development shallowly embeds the Trezor and Ledger static signing
methods of the repository (src/src/purser-trezor/staticMethods.ts,
src/src/purser-ledger/staticMethods.ts and the earlier Ledger variant in
src/unnamed/part_000).  Library code that the repository consumes but
that is not part of the sources under inspection (the purser-core
normalizers, validators and helpers, the Node Buffer primitives, the
ethereumjs-tx transaction container and the bip32 path codec) is
modelled from the specification, as marked on each definition.

Backend devices and field validators are external collaborators; their
outcomes enter the embedded functions as explicit arguments of type
Except, mirroring the await/try-catch structure of the source.
-/

namespace Purser

/-- A thrown JavaScript error, identified by its message string. -/
structure JsError where
  message : String
deriving DecidableEq, Repr

/-- Hex digit test, matching the digits Node accepts in hex decoding. -/
def isHexDigit (c : Char) : Bool :=
  (Char.ofNat 48 ≤ c && c ≤ Char.ofNat 57) ||
  (Char.ofNat 97 ≤ c && c ≤ Char.ofNat 102) ||
  (Char.ofNat 65 ≤ c && c ≤ Char.ofNat 70)

/-- Numeric value of a hex digit character. -/
def hexDigitVal (c : Char) : Nat :=
  if Char.ofNat 48 ≤ c && c ≤ Char.ofNat 57 then c.toNat - 48
  else if Char.ofNat 97 ≤ c && c ≤ Char.ofNat 102 then c.toNat - 87
  else if Char.ofNat 65 ≤ c && c ≤ Char.ofNat 70 then c.toNat - 55
  else 0

/-- Lowercase hex character of a value below 16, as produced by the
JavaScript number-to-string conversion in base 16. -/
def hexDigitChar (n : Nat) : Char :=
  if n < 10 then Char.ofNat (48 + n) else Char.ofNat (87 + n)

/-- Little-endian hex digits with an explicit fuel bound, so that the
recursion is structural and reduces inside the kernel.  The fuel is
always instantiated with the number itself, which bounds the digit
count. -/
def natToHexRevAux : Nat → Nat → List Char
  | _, 0 => []
  | 0, _ + 1 => []
  | fuel + 1, n + 1 => hexDigitChar ((n + 1) % 16) :: natToHexRevAux fuel ((n + 1) / 16)

/-- Little-endian hex digits of a natural number (most significant last). -/
def natToHexRev (n : Nat) : List Char :=
  natToHexRevAux n n

/-- JavaScript Number.prototype.toString in base 16: minimal lowercase
hex digits, with 0 rendered as the single digit 0. -/
def natToHexStr (n : Nat) : String :=
  if n = 0 then "0" else String.mk (natToHexRev n).reverse

/-- Strip one leading 0x marker from a character list, if present. -/
def stripPfxChars : List Char → List Char
  | '0' :: 'x' :: rest => rest
  | cs => cs

/-- Modelled from the spec: HexCodec stripPrefix (spec 4.1); the
purser-core codec module is not under src.  Removes one 0x marker. -/
def stripHexPfx (s : String) : String :=
  String.mk (stripPfxChars s.data)

/-- Modelled from the spec: purser-core hexSequenceNormalizer built on
HexCodec withPrefix and stripPrefix (spec 4.1); the module is not under
src.  With the flag set the result carries exactly one 0x marker, with
the flag unset the marker is removed.  Call sites in src pass the flag
explicitly where they deviate from the default of true. -/
def hexSequenceNormalizer (hexString : String) (hexPfx : Bool) : String :=
  if hexPfx then "0x" ++ stripHexPfx hexString else stripHexPfx hexString

/-- Modelled from the spec: purser-core multipleOfTwoHexValueNormalizer,
the toEvenHex operation of HexCodec (spec 4.1); the module is not under
src.  Prepends a zero nibble when the digit count is odd. -/
def multipleOfTwoHexValueNormalizer (value : String) : String :=
  if value.length % 2 == 1 then "0" ++ value else value

/-- Modelled from the spec: purser-core addressNormalizer (spec 4.4
prefixed versus stripped wire fields); the module is not under src.
Same prefix handling as the hex sequence normalizer. -/
def addressNormalizer (address : String) (hexPfx : Bool) : String :=
  if hexPfx then "0x" ++ stripHexPfx address else stripHexPfx address

/-- Modelled from the spec: purser-core SIGNATURE defaults, the
empty/placeholder signature seed values (spec 4.4); the defaults module
is not under src. -/
def SIGNATURE_R : Nat := 0

/-- Modelled from the spec: placeholder S seed value, as SIGNATURE_R. -/
def SIGNATURE_S : Nat := 0

/-- Hex pair decoding as performed by Node for hex-encoded buffers:
characters are consumed two at a time and decoding stops at the first
character that is not a hex digit (a trailing lone digit is dropped). -/
def hexPairsToBytes : List Char → List Nat
  | c1 :: c2 :: rest =>
      if isHexDigit c1 && isHexDigit c2 then
        (hexDigitVal c1 * 16 + hexDigitVal c2) :: hexPairsToBytes rest
      else []
  | _ => []

/-- Modelled from the spec via the Node runtime contract: the external
Buffer.from(string, hex) constructor used at the signature-merge sites
in src.  It truncates at the first non-hex character, so a string that
still carries its 0x marker decodes to the empty buffer. -/
def bufferFromHex (s : String) : List Nat :=
  hexPairsToBytes s.data

/-- Modelled from the spec: the hex-string-to-buffer conversion of the
external ethereumjs transaction container (docs of spec 3 SigningPayload
hex conventions).  The 0x marker is removed, the digits padded to even
length and decoded to bytes. -/
def toBufferHexStr (s : String) : List Nat :=
  hexPairsToBytes (multipleOfTwoHexValueNormalizer (stripHexPfx s)).data

/-- Two lowercase hex characters of one byte, as produced by the Node
buffer-to-hex-string conversion. -/
def byteToHexChars (b : Nat) : List Char :=
  [hexDigitChar (b % 256 / 16), hexDigitChar (b % 16)]

/-- Node buffer-to-string conversion in hex: two lowercase digits per
byte, concatenated. -/
def bytesToHex (bs : List Nat) : String :=
  String.mk (bs.map byteToHexChars).flatten

/-- Big-endian numeric value of a byte sequence. -/
def bytesToNat (bs : List Nat) : Nat :=
  bs.foldl (fun acc b => acc * 256 + b) 0

/-- Numeric value of a hex digit sequence. -/
def hexCharsToNat (cs : List Char) : Nat :=
  cs.foldl (fun acc c => acc * 16 + hexDigitVal c) 0

/-- Minimal big-endian byte rendering of a natural number (empty for 0),
used by the RLP length encoding. -/
def natToBytes (n : Nat) : List Nat :=
  (natToHexRev n).reverse |> fun ds => hexPairsToBytes (multipleOfTwoHexValueNormalizer (String.mk ds)).data

/-- RLP length header: a single tagged byte for short payloads, a tag
byte followed by the big-endian length otherwise. -/
def rlpEncodeLength (len offset : Nat) : List Nat :=
  if len < 56 then [offset + len]
  else (offset + 55 + (natToBytes len).length) :: natToBytes len

/-- RLP encoding of a byte string: a single byte below 128 stands for
itself, any other byte string is preceded by a length header. -/
def rlpEncodeBytes (bs : List Nat) : List Nat :=
  match bs with
  | [b] => if b < 128 then [b] else rlpEncodeLength 1 128 ++ [b]
  | _ => rlpEncodeLength bs.length 128 ++ bs

/-- RLP encoding of a list given the concatenated encodings of its
items. -/
def rlpEncodeListPayload (payload : List Nat) : List Nat :=
  rlpEncodeLength payload.length 192 ++ payload

/-- Modelled from the spec: the external ethereumjs transaction
container (spec glossary RLP, spec 4.6).  Field values are the raw
byte buffers of the nine transaction slots; an absent destination is
the empty buffer.  The leading-zero canonicalization the library
applies to numeric slots is not modelled; no settled claim depends on
it, and it applies identically to the variants that are compared. -/
structure EthereumTx where
  nonce : List Nat
  gasPrice : List Nat
  gasLimit : List Nat
  «to» : List Nat
  value : List Nat
  data : List Nat
  v : List Nat
  r : List Nat
  s : List Nat
deriving DecidableEq, Repr

/-- The nine RLP slots of a transaction in their serialization order. -/
def EthereumTx.raw (tx : EthereumTx) : List (List Nat) :=
  [tx.nonce, tx.gasPrice, tx.gasLimit, tx.«to», tx.value, tx.data, tx.v, tx.r, tx.s]

/-- Modelled from the spec: ethereumjs transaction serialization, the
RLP encoding of the nine raw slots (spec 4.6, glossary RLP). -/
def EthereumTx.serialize (tx : EthereumTx) : List Nat :=
  rlpEncodeListPayload ((tx.raw.map rlpEncodeBytes).flatten)

/-- Modelled from the spec: the output of transactionObjectValidator
(spec 4.3) for the current TypeScript modules; purser-core helpers are
not under src.  Per the TransactionObjectType declarations in src the
big-integer fields gasPrice, gasLimit and value are carried as their
canonical unprefixed lowercase hex renderings, chainId and nonce are
numbers, the optional destination is an address string and inputData is
a 0x-prefixed hex sequence. -/
structure ValidatedTx where
  chainId : Nat
  gasPrice : String
  gasLimit : String
  nonce : Nat
  «to» : Option String
  value : String
  inputData : String
deriving DecidableEq, Repr

/-- Modelled from the spec: the output of transactionObjectValidator for
the earlier Ledger variant in src/unnamed/part_000, whose big-integer
fields are bignum instances rendered with toString 16 at use sites. -/
structure ValidatedTxBN where
  chainId : Nat
  gasPrice : Nat
  gasLimit : Nat
  nonce : Nat
  «to» : Option String
  value : Nat
  inputData : String
deriving DecidableEq, Repr

/-- JavaScript truthiness of the optional destination: absent or empty
strings are falsy. -/
def jsTruthy : Option String → Bool
  | some s => !s.isEmpty
  | none => false

/-- The argument record passed to the ethereumjs transaction constructor:
the exact strings the two signTransaction variants build, one slot per
constructor key (the Trezor variant passes no destination key). -/
structure TxCtorArgs where
  gasPrice : String
  gasLimit : String
  nonce : String
  value : String
  data : String
  r : String
  s : String
  v : String
  «to» : Option String
deriving DecidableEq, Repr

/-- The seeded placeholder slot for the R or S component: the source
applies String, the even-padding normalizer and the prefixing hex
normalizer to the SIGNATURE default. -/
def seededSigSlot (n : Nat) : String :=
  hexSequenceNormalizer (multipleOfTwoHexValueNormalizer (natToHexStr n)) true

/-- Constructor arguments of the unsigned transaction built by the
Trezor signTransaction (src/src/purser-trezor/staticMethods.ts lines
84 to 131).  The source passes gasPrice to the gasLimit slot at line 93;
this embedding reproduces that verbatim. -/
def trezorUnsignedTxArgs (req : ValidatedTx) : TxCtorArgs :=
  { gasPrice := hexSequenceNormalizer (multipleOfTwoHexValueNormalizer req.gasPrice) true
    gasLimit := hexSequenceNormalizer (multipleOfTwoHexValueNormalizer req.gasPrice) true
    nonce := hexSequenceNormalizer (multipleOfTwoHexValueNormalizer (natToHexStr req.nonce)) true
    value := hexSequenceNormalizer (multipleOfTwoHexValueNormalizer req.value) true
    data := hexSequenceNormalizer req.inputData true
    r := seededSigSlot SIGNATURE_R
    s := seededSigSlot SIGNATURE_S
    v := hexSequenceNormalizer (multipleOfTwoHexValueNormalizer (natToHexStr req.chainId)) true
    «to» := none }

/-- Constructor arguments of the unsigned transaction built by the
current Ledger signTransaction (src/src/purser-ledger/staticMethods.ts
lines 86 to 134); the destination is merged in only when truthy. -/
def ledgerUnsignedTxArgs (req : ValidatedTx) : TxCtorArgs :=
  { gasPrice := hexSequenceNormalizer (multipleOfTwoHexValueNormalizer req.gasPrice) true
    gasLimit := hexSequenceNormalizer (multipleOfTwoHexValueNormalizer req.gasLimit) true
    nonce := hexSequenceNormalizer (multipleOfTwoHexValueNormalizer (natToHexStr req.nonce)) true
    value := hexSequenceNormalizer (multipleOfTwoHexValueNormalizer req.value) true
    data := hexSequenceNormalizer req.inputData true
    r := seededSigSlot SIGNATURE_R
    s := seededSigSlot SIGNATURE_S
    v := hexSequenceNormalizer (multipleOfTwoHexValueNormalizer (natToHexStr req.chainId)) true
    «to» := match req.«to» with
      | some t => if t.isEmpty then none else some (addressNormalizer t true)
      | none => none }

/-- Constructor arguments of the unsigned transaction built by the
earlier Ledger signTransaction (src/unnamed/part_000 lines 136 to 215),
whose bignum fields are rendered with toString 16 before padding. -/
def ledgerUnsignedTxArgsOld (req : ValidatedTxBN) : TxCtorArgs :=
  { gasPrice := hexSequenceNormalizer (multipleOfTwoHexValueNormalizer (natToHexStr req.gasPrice)) true
    gasLimit := hexSequenceNormalizer (multipleOfTwoHexValueNormalizer (natToHexStr req.gasLimit)) true
    nonce := hexSequenceNormalizer (multipleOfTwoHexValueNormalizer (natToHexStr req.nonce)) true
    value := hexSequenceNormalizer (multipleOfTwoHexValueNormalizer (natToHexStr req.value)) true
    data := hexSequenceNormalizer req.inputData true
    r := seededSigSlot SIGNATURE_R
    s := seededSigSlot SIGNATURE_S
    v := hexSequenceNormalizer (multipleOfTwoHexValueNormalizer (natToHexStr req.chainId)) true
    «to» := match req.«to» with
      | some t => if t.isEmpty then none else some (addressNormalizer t true)
      | none => none }

/-- Instantiation of the ethereumjs transaction container from the
constructor argument strings: every present slot is hex-decoded after
removing the 0x marker and padding to even length; the absent
destination becomes the empty buffer. -/
def mkEthereumTx (a : TxCtorArgs) : EthereumTx :=
  { nonce := toBufferHexStr a.nonce
    gasPrice := toBufferHexStr a.gasPrice
    gasLimit := toBufferHexStr a.gasLimit
    «to» := match a.«to» with
      | some t => toBufferHexStr t
      | none => []
    value := toBufferHexStr a.value
    data := toBufferHexStr a.data
    v := toBufferHexStr a.v
    r := toBufferHexStr a.r
    s := toBufferHexStr a.s }

/-- The hardening marker of a derivation path segment. -/
def hardenedMark : Char := Char.ofNat 39

/-- Modelled from the spec: DerivationPathCodec.parse (spec 4.2)
composed with the external bip32 toPathArray; neither is under src.
Segments of the m-slash grammar become indices, hardened segments OR in
the high bit. -/
def parseDerivationPath (s : String) : List Nat :=
  let body := if s.startsWith "m/" then s.drop 2 else s
  (body.splitOn "/").map fun seg =>
    if seg.endsWith (String.mk [hardenedMark]) then
      ((seg.dropRight 1).toNat?).getD 0 + 2 ^ 31
    else (seg.toNat?).getD 0

/-- Modelled from the spec: purser-core derivationPathNormalizer; the
module is not under src.  Normalizing an already well-formed path is a
no-op (spec 8 idempotence), and signing call sites only reach it after
derivationPathValidator has accepted the path. -/
def derivationPathNormalizer (s : String) : String := s

/-- The Trezor transaction-signing device payload as assembled in
src/src/purser-trezor/staticMethods.ts lines 135 to 163: path array,
even-padded unprefixed numeric fields, numeric chain id, stripped data,
and a stripped destination merged in only when truthy.  The constant
base keys of PAYLOAD_SIGNTX (not under src) carry no request data and
are not modelled. -/
structure TrezorSignTxPayload where
  address_n : List Nat
  gas_price : String
  gas_limit : String
  chain_id : Nat
  nonce : String
  value : String
  data : String
  «to» : Option String
deriving DecidableEq, Repr

/-- Payload builder of the Trezor signTransaction. -/
def trezorSignTxPayload (req : ValidatedTx) (derivationPath : String) : TrezorSignTxPayload :=
  { address_n := parseDerivationPath (derivationPathNormalizer derivationPath)
    gas_price := multipleOfTwoHexValueNormalizer req.gasPrice
    gas_limit := multipleOfTwoHexValueNormalizer req.gasLimit
    chain_id := req.chainId
    nonce := multipleOfTwoHexValueNormalizer (natToHexStr req.nonce)
    value := multipleOfTwoHexValueNormalizer req.value
    data := hexSequenceNormalizer req.inputData false
    «to» := match req.«to» with
      | some t => if t.isEmpty then none else some (addressNormalizer t false)
      | none => none }

/-- Modelled from the spec: purser-core objectToErrorString, the
serialized dump used for Generic error context (spec 4.7); the utils
module is not under src.  Renders label-value pairs of the Trezor
payload. -/
def trezorPayloadToErrorString (p : TrezorSignTxPayload) : String :=
  "address_n: [" ++ String.intercalate ", " (p.address_n.map (fun n => natToHexStr n)) ++
  "], gas_price: " ++ p.gas_price ++
  ", gas_limit: " ++ p.gas_limit ++
  ", chain_id: " ++ natToHexStr p.chain_id ++
  ", nonce: " ++ p.nonce ++
  ", value: " ++ p.value ++
  ", data: " ++ p.data ++
  (match p.«to» with
    | some t => ", to: " ++ t
    | none => "")

/-- Modelled from the spec: purser-core objectToErrorString applied to
the raw transaction request object, as the Ledger variants do. -/
def transactionObjectToErrorString (req : ValidatedTx) : String :=
  "chainId: " ++ natToHexStr req.chainId ++
  ", gasPrice: " ++ req.gasPrice ++
  ", gasLimit: " ++ req.gasLimit ++
  ", nonce: " ++ natToHexStr req.nonce ++
  ", value: " ++ req.value ++
  ", inputData: " ++ req.inputData ++
  (match req.«to» with
    | some t => ", to: " ++ t
    | none => "")

/-- Modelled from the spec: the designated Trezor cancellation signal
STD_ERRORS.CANCEL_TX_SIGN (spec 4.7, 9); the Trezor defaults module is
not under src. -/
def STD_ERRORS_CANCEL_TX_SIGN : String := "Action cancelled by user"

/-- Modelled from the spec: the designated Ledger cancellation signal
recognized by handleLedgerConnectionError; the Ledger helpers module is
not under src. -/
def LEDGER_CANCEL_SIGNAL : String := "U2F DEVICE_INELIGIBLE"

/-- Modelled from the spec: the fixed user-facing cancellation message
messages.userSignTxCancel (spec 4.7); the messages modules are not
under src. -/
def messagesUserSignTxCancel : String := "User cancelled the signature request"

/-- Modelled from the spec: the generic signing failure message stem
messages.userSignTxGenericError; the messages modules are not under
src. -/
def messagesUserSignTxGenericError : String := "Could not sign the transaction"

/-- Modelled from the spec: the fixed argument-missing message
messages.signMessageArgumentMissing; the messages modules are not under
src. -/
def messagesSignMessageArgumentMissing : String := "Missing signMessage argument object"

/-- Classified signing failure: the source distinguishes the stable
cancellation rethrow from the context-carrying generic rethrow and from
plainly propagated errors (spec 4.7 taxonomy Cancelled and Generic). -/
inductive SignError where
  | cancelled (msg : String)
  | generic (msg : String)
  | plain (msg : String)
deriving DecidableEq, Repr

/-- Signature components returned by the Trezor service: hex strings for
R and S and a numeric recovery parameter. -/
structure TrezorSigComponents where
  r : String
  s : String
  v : Nat
deriving DecidableEq, Repr

/-- Signature components returned by the Ledger transaction signing
call: hex strings for R, S and V (src/unnamed/part_001). -/
structure LedgerSigComponents where
  r : String
  s : String
  v : String
deriving DecidableEq, Repr

/-- Signature merge of the Trezor signTransaction (lines 192 to 196):
each component is prefixed by the hex normalizer and then handed to the
Node hex buffer constructor. -/
def trezorMergeSignature (tx : EthereumTx) (sig : TrezorSigComponents) : EthereumTx :=
  { tx with
    r := bufferFromHex (hexSequenceNormalizer sig.r true)
    s := bufferFromHex (hexSequenceNormalizer sig.s true)
    v := bufferFromHex (hexSequenceNormalizer (natToHexStr sig.v) true) }

/-- Signature merge of the current Ledger signTransaction (lines 155 to
157), likewise prefixing each component before the Node hex buffer
constructor. -/
def ledgerMergeSignature (tx : EthereumTx) (sig : LedgerSigComponents) : EthereumTx :=
  { tx with
    r := bufferFromHex (hexSequenceNormalizer sig.r true)
    s := bufferFromHex (hexSequenceNormalizer sig.s true)
    v := bufferFromHex (hexSequenceNormalizer sig.v true) }

/-- Signature merge of the earlier Ledger variant (src/unnamed/part_000
lines 236 to 238): the prefixed strings are assigned to the container
slots, whose setter decodes prefixed hex strings itself. -/
def ledgerMergeSignatureOld (tx : EthereumTx) (sig : LedgerSigComponents) : EthereumTx :=
  { tx with
    r := toBufferHexStr (hexSequenceNormalizer sig.r true)
    s := toBufferHexStr (hexSequenceNormalizer sig.s true)
    v := toBufferHexStr (hexSequenceNormalizer sig.v true) }

/-- Serialized output of a signed transaction: the RLP byte encoding
rendered as hex and re-normalized with the 0x marker (Trezor lines 197
to 199, Ledger lines 158 to 164). -/
def serializedOutput (tx : EthereumTx) : String :=
  hexSequenceNormalizer (bytesToHex tx.serialize) true

/-- The Trezor signTransaction after validation
(src/src/purser-trezor/staticMethods.ts lines 84 to 217): builds the
unsigned transaction and the device payload, and either merges the
returned components and serializes, or classifies the thrown error,
rethrowing the fixed cancellation message on the designated signal and
otherwise a generic message carrying the payload dump and the original
message.  The device call outcome is an explicit argument. -/
def trezorSignTransaction (req : ValidatedTx) (derivationPath : String)
    (backend : Except JsError TrezorSigComponents) : Except SignError String :=
  match backend with
  | .ok sig =>
      .ok (serializedOutput (trezorMergeSignature (mkEthereumTx (trezorUnsignedTxArgs req)) sig))
  | .error e =>
      if e.message == STD_ERRORS_CANCEL_TX_SIGN then
        .error (.cancelled messagesUserSignTxCancel)
      else
        .error (.generic (messagesUserSignTxGenericError ++ ": " ++
          trezorPayloadToErrorString (trezorSignTxPayload req derivationPath) ++ " " ++ e.message))

/-- Modelled from the spec: the Ledger helpers handleLedgerConnectionError
(spec 4.7 ErrorClassifier); the helpers module is not under src.  The
designated cancellation signal becomes the stable cancellation error
with the fixed message, anything else becomes a generic error carrying
the message assembled at the call site. -/
def handleLedgerConnectionError (e : JsError) (msg : String) : Except SignError String :=
  if e.message == LEDGER_CANCEL_SIGNAL then .error (.cancelled messagesUserSignTxCancel)
  else .error (.generic msg)

/-- The serialized unsigned transaction hex the current Ledger
signTransaction sends to the device (lines 145 to 148): the outgoing
signing payload together with the normalized derivation path. -/
def ledgerOutgoingTxHex (req : ValidatedTx) : String :=
  bytesToHex (mkEthereumTx (ledgerUnsignedTxArgs req)).serialize

/-- The current Ledger signTransaction after validation
(src/src/purser-ledger/staticMethods.ts lines 47 to 173): builds the
unsigned transaction, sends its serialization, merges the returned
components and serializes again; every failure flows to the connection
error handler with a message carrying the dump of the raw transaction
request object. -/
def ledgerSignTransaction (req : ValidatedTx)
    (backend : Except JsError LedgerSigComponents) : Except SignError String :=
  match backend with
  | .ok sig =>
      .ok (serializedOutput (ledgerMergeSignature (mkEthereumTx (ledgerUnsignedTxArgs req)) sig))
  | .error e =>
      handleLedgerConnectionError e (messagesUserSignTxGenericError ++ ": " ++
        transactionObjectToErrorString req ++ " " ++ e.message)

/-- Modelled from the spec: purser-core objectToErrorString applied to
the bignum-typed request of the earlier Ledger variant. -/
def transactionObjectToErrorStringBN (req : ValidatedTxBN) : String :=
  "chainId: " ++ natToHexStr req.chainId ++
  ", gasPrice: " ++ natToHexStr req.gasPrice ++
  ", gasLimit: " ++ natToHexStr req.gasLimit ++
  ", nonce: " ++ natToHexStr req.nonce ++
  ", value: " ++ natToHexStr req.value ++
  ", inputData: " ++ req.inputData ++
  (match req.«to» with
    | some t => ", to: " ++ t
    | none => "")

/-- The earlier Ledger signTransaction (src/unnamed/part_000 lines 107
to 254) on its bignum-typed request, differing in the constructor
rendering and in assigning prefixed strings instead of Node hex
buffers at the merge. -/
def ledgerSignTransactionOld (req : ValidatedTxBN)
    (backend : Except JsError LedgerSigComponents) : Except SignError String :=
  match backend with
  | .ok sig =>
      .ok (serializedOutput (ledgerMergeSignatureOld (mkEthereumTx (ledgerUnsignedTxArgsOld req)) sig))
  | .error e =>
      handleLedgerConnectionError e (messagesUserSignTxGenericError ++ ": " ++
        transactionObjectToErrorStringBN req ++ " " ++ e.message)

/-- A JavaScript argument position: null, a non-object value, or an
actual object. -/
inductive JsArgument (α : Type) where
  | null
  | nonObject
  | object (o : α)
deriving DecidableEq, Repr

/-- The fields of the signMessage argument object. -/
structure SignMessageObj where
  derivationPath : String
  message : String
  messageData : String
deriving DecidableEq, Repr

/-- The Trezor signMessage (src/src/purser-trezor/staticMethods.ts lines
233 to 287): a null or non-object argument is rejected with the fixed
argument-missing message before anything else runs; then the path and
message validators (external, outcomes passed in) may reject; then the
device outcome is either prefixed and returned, or classified as the
fixed cancellation or a generic error quoting the message text. -/
def trezorSignMessage (arg : JsArgument SignMessageObj)
    (pathValidation : Except JsError Unit)
    (msgValidation : Except JsError String)
    (backend : Except JsError String) : Except SignError String :=
  match arg with
  | .null => .error (.plain messagesSignMessageArgumentMissing)
  | .nonObject => .error (.plain messagesSignMessageArgumentMissing)
  | .object o =>
    match pathValidation with
    | .error e => .error (.plain e.message)
    | .ok _ =>
      match msgValidation with
      | .error e => .error (.plain e.message)
      | .ok _ =>
        match backend with
        | .ok signedMessage => .ok (hexSequenceNormalizer signedMessage true)
        | .error e =>
          if e.message == STD_ERRORS_CANCEL_TX_SIGN then
            .error (.cancelled messagesUserSignTxCancel)
          else
            .error (.generic (messagesUserSignTxGenericError ++ ": message: (" ++
              o.message ++ ") " ++ e.message))

/-- Signature components of the Ledger personal-message signing call:
hex strings for R and S and a numeric recovery parameter
(src/unnamed/part_001). -/
structure LedgerMsgSigComponents where
  r : String
  s : String
  v : Nat
deriving DecidableEq, Repr

/-- The Ledger signMessage (src/src/purser-ledger/staticMethods.ts lines
187 to 246): a null or non-object argument is rejected with the fixed
argument-missing message first; then path and message validators may
reject; then the three returned components are concatenated, the
recovery parameter rendered in hex, and the blob prefixed; failures go
to the connection error handler. -/
def ledgerSignMessage (arg : JsArgument SignMessageObj)
    (pathValidation : Except JsError Unit)
    (msgValidation : Except JsError String)
    (backend : Except JsError LedgerMsgSigComponents) : Except SignError String :=
  match arg with
  | .null => .error (.plain messagesSignMessageArgumentMissing)
  | .nonObject => .error (.plain messagesSignMessageArgumentMissing)
  | .object _ =>
    match pathValidation with
    | .error e => .error (.plain e.message)
    | .ok _ =>
      match msgValidation with
      | .error e => .error (.plain e.message)
      | .ok toSign =>
        match backend with
        | .ok sig => .ok (hexSequenceNormalizer (sig.r ++ sig.s ++ natToHexStr sig.v) true)
        | .error e =>
          handleLedgerConnectionError e (messagesUserSignTxGenericError ++ ": message: (" ++
            toSign ++ ") " ++ e.message)

/-- The Trezor verifyMessage (src/src/purser-trezor/staticMethods.ts
lines 302 to 344): the address validator and the verification object
validator run before the try block, so their rejections propagate; only
the device verification call is inside the try, whose catch logs and
returns false. -/
def trezorVerifyMessage (addrValidation : Except JsError Unit)
    (msgValidation : Except JsError (String × String))
    (backend : Except JsError Bool) : Except JsError Bool :=
  match addrValidation with
  | .error e => .error e
  | .ok _ =>
    match msgValidation with
    | .error e => .error e
    | .ok _ =>
      match backend with
      | .ok success => .ok success
      | .error _ => .ok false

/-- Modelled from the spec: purser-core verifyMessageSignature
(spec 4.7); the helpers module is not under src.  It converts every
failure of the cryptographic verification into the boolean false,
logging a warning, and never rethrows. -/
def verifyMessageSignature (crypto : Except JsError Bool) : Bool :=
  match crypto with
  | .ok b => b
  | .error _ => false

/-- The Ledger verifyMessage (src/src/purser-ledger/staticMethods.ts
lines 261 to 291): the public key validator and the verification object
validator run first and their rejections propagate; the verification
itself goes through the core helper, which absorbs failures. -/
def ledgerVerifyMessage (keyValidation : Except JsError Unit)
    (msgValidation : Except JsError (String × String))
    (crypto : Except JsError Bool) : Except JsError Bool :=
  match keyValidation with
  | .error e => .error e
  | .ok _ =>
    match msgValidation with
    | .error e => .error e
    | .ok _ => .ok (verifyMessageSignature crypto)

/-- Whether the second list occurs at the head of the first. -/
def listStartsWith : List Char → List Char → Bool
  | _, [] => true
  | [], _ :: _ => false
  | a :: as, b :: bs => a == b && listStartsWith as bs

/-- Whether the second list occurs contiguously anywhere in the first. -/
def containsSeq : List Char → List Char → Bool
  | [], sub => listStartsWith [] sub
  | hay@(_ :: rest), sub => listStartsWith hay sub || containsSeq rest sub

/-- A representative validated transaction request used by the concrete
evaluations: mainnet chain, the gas price and limit of the spec example
in section 8, an empty value and no input data. -/
def exampleRequest : ValidatedTx :=
  { chainId := 1
    gasPrice := "3b9aca00"
    gasLimit := "5208"
    nonce := 0
    «to» := some "0x3e2cde7b2fcbabb52f653a877eb20d7c4b92ddfe"
    value := "0"
    inputData := "0x" }

/-- The same request in the bignum shape consumed by the earlier Ledger
variant: each hex string of exampleRequest rendered as its numeric
value. -/
def exampleRequestBN : ValidatedTxBN :=
  { chainId := 1
    gasPrice := 1000000000
    gasLimit := 21000
    nonce := 0
    «to» := some "0x3e2cde7b2fcbabb52f653a877eb20d7c4b92ddfe"
    value := 0
    inputData := "0x" }

/-- A representative Ledger transaction signature: 32-byte R and S hex
strings and the chain-adjusted recovery value 37 in hex. -/
def exampleLedgerSig : LedgerSigComponents :=
  { r := "9242685bf161793cc25603c231bc2f568eb630ea16aa137d2664ac8038825608"
    s := "4f8ae3bd7535248d0bd448298cc2e2071e56992d0774dc340c368ae950852ada"
    v := "25" }

/-- The same representative signature in the Trezor shape, whose
recovery parameter is numeric. -/
def exampleTrezorSig : TrezorSigComponents :=
  { r := "9242685bf161793cc25603c231bc2f568eb630ea16aa137d2664ac8038825608"
    s := "4f8ae3bd7535248d0bd448298cc2e2071e56992d0774dc340c368ae950852ada"
    v := 37 }

/-- A well-formed derivation path without hardened segments, sufficient
for exercising the payload builder. -/
def examplePath : String := "m/44/60/0/0/0"

/-- A representative signMessage argument object. -/
def exampleSignMessageObj : SignMessageObj :=
  { derivationPath := "m/44/60/0/0/0"
    message := "hello"
    messageData := "" }

/-- A representative Ledger personal-message signature with the
chain-agnostic recovery value 28. -/
def exampleLedgerMsgSig : LedgerMsgSigComponents :=
  { r := "9242685bf161793cc25603c231bc2f568eb630ea16aa137d2664ac8038825608"
    s := "4f8ae3bd7535248d0bd448298cc2e2071e56992d0774dc340c368ae950852ada"
    v := 28 }

deriving instance DecidableEq for Except

set_option maxRecDepth 8000

/-! Auxiliary lemmas about the hex codecs. -/

theorem hexDigitVal_hexDigitChar : ∀ d < 16, hexDigitVal (hexDigitChar d) = d := by decide

theorem isHexDigit_hexDigitChar : ∀ d < 16, isHexDigit (hexDigitChar d) = true := by decide

theorem stripPfxChars_of_all_hex : ∀ (l : List Char), l.all isHexDigit = true → stripPfxChars l = l := by
  intro l h
  unfold stripPfxChars
  split
  · next rest =>
    exfalso
    rw [List.all_cons, List.all_cons] at h
    simp only [Bool.and_eq_true] at h
    exact absurd h.2.1 (by decide)
  · rfl

theorem hexCharsToNat_append_singleton (l : List Char) (c : Char) :
    hexCharsToNat (l ++ [c]) = hexCharsToNat l * 16 + hexDigitVal c := by
  simp [hexCharsToNat, List.foldl_append]

theorem hexCharsToNat_natToHexRevAux : ∀ (fuel n : Nat), n ≤ fuel →
    hexCharsToNat (natToHexRevAux fuel n).reverse = n := by
  intro fuel
  induction fuel with
  | zero =>
    intro n hn
    have h0 : n = 0 := Nat.le_zero.mp hn
    subst h0; rfl
  | succ f ih =>
    intro n hn
    match n with
    | 0 => rfl
    | m + 1 =>
      show hexCharsToNat (hexDigitChar ((m + 1) % 16) :: natToHexRevAux f ((m + 1) / 16)).reverse = m + 1
      rw [List.reverse_cons, hexCharsToNat_append_singleton]
      rw [ih ((m + 1) / 16)
        (by have := Nat.div_lt_self (Nat.succ_pos m) (by decide : 1 < 16); omega)]
      rw [hexDigitVal_hexDigitChar _ (Nat.mod_lt _ (by decide))]
      omega

theorem hexCharsToNat_natToHexStr (n : Nat) : hexCharsToNat (natToHexStr n).data = n := by
  unfold natToHexStr
  split
  · next h => subst h; rfl
  · exact hexCharsToNat_natToHexRevAux n n (Nat.le_refl n)

theorem natToHexRevAux_all_hex : ∀ (fuel n : Nat), (natToHexRevAux fuel n).all isHexDigit = true := by
  intro fuel
  induction fuel with
  | zero => intro n; match n with | 0 => rfl | _ + 1 => rfl
  | succ f ih =>
    intro n
    match n with
    | 0 => rfl
    | m + 1 =>
      show (hexDigitChar ((m + 1) % 16) :: natToHexRevAux f ((m + 1) / 16)).all isHexDigit = true
      rw [List.all_cons, isHexDigit_hexDigitChar _ (Nat.mod_lt _ (by decide)), Bool.true_and]
      exact ih ((m + 1) / 16)

theorem natToHexStr_all_hex (n : Nat) : (natToHexStr n).data.all isHexDigit = true := by
  unfold natToHexStr
  split
  · rfl
  · show (natToHexRevAux n n).reverse.all isHexDigit = true
    rw [List.all_reverse]
    exact natToHexRevAux_all_hex n n

theorem hexPairsToBytes_foldl : ∀ (cs : List Char) (acc : Nat),
    cs.all isHexDigit = true → cs.length % 2 = 0 →
    (hexPairsToBytes cs).foldl (fun a b => a * 256 + b) acc =
      cs.foldl (fun a c => a * 16 + hexDigitVal c) acc
  | [], _, _, _ => rfl
  | [_], _, _, h2 => by simp at h2
  | c1 :: c2 :: rest, acc, h1, h2 => by
    rw [List.all_cons, List.all_cons] at h1
    simp only [Bool.and_eq_true] at h1
    obtain ⟨hc1, hc2, hrest⟩ := h1
    unfold hexPairsToBytes
    rw [if_pos (by rw [hc1, hc2]; rfl)]
    simp only [List.foldl_cons]
    have harith : (acc * 16 + hexDigitVal c1) * 16 + hexDigitVal c2 =
        acc * 256 + (hexDigitVal c1 * 16 + hexDigitVal c2) := by ring
    rw [← harith]
    exact hexPairsToBytes_foldl rest _ hrest
      (by simp only [List.length_cons] at h2; omega)

theorem bytesToNat_hexPairsToBytes (cs : List Char)
    (h1 : cs.all isHexDigit = true) (h2 : cs.length % 2 = 0) :
    bytesToNat (hexPairsToBytes cs) = hexCharsToNat cs :=
  hexPairsToBytes_foldl cs 0 h1 h2

theorem multipleOfTwo_data (s : String) :
    (multipleOfTwoHexValueNormalizer s).data =
      if s.length % 2 == 1 then '0' :: s.data else s.data := by
  unfold multipleOfTwoHexValueNormalizer
  split
  · rw [String.data_append]; rfl
  · rfl

theorem multipleOfTwo_length_even (s : String) :
    (multipleOfTwoHexValueNormalizer s).length % 2 = 0 := by
  show (multipleOfTwoHexValueNormalizer s).data.length % 2 = 0
  rw [multipleOfTwo_data]
  have hlen : s.length = s.data.length := rfl
  split
  · next h => simp only [List.length_cons]; rw [beq_iff_eq] at h; omega
  · next h => rw [beq_iff_eq] at h; omega

theorem multipleOfTwo_all_hex (s : String) (h : s.data.all isHexDigit = true) :
    (multipleOfTwoHexValueNormalizer s).data.all isHexDigit = true := by
  rw [multipleOfTwo_data]
  split
  · rw [List.all_cons, h]; rfl
  · exact h

theorem hexCharsToNat_multipleOfTwo (s : String) :
    hexCharsToNat (multipleOfTwoHexValueNormalizer s).data = hexCharsToNat s.data := by
  rw [multipleOfTwo_data]
  split
  · show List.foldl _ (0 * 16 + hexDigitVal '0') s.data = hexCharsToNat s.data
    have h0 : (0 : Nat) * 16 + hexDigitVal '0' = 0 := by decide
    rw [h0]; rfl
  · rfl

theorem stripHexPfx_of_all_hex (s : String) (h : s.data.all isHexDigit = true) :
    stripHexPfx s = s := by
  unfold stripHexPfx
  rw [stripPfxChars_of_all_hex s.data h]

theorem stripHexPfx_append_0x (t : String) : stripHexPfx ("0x" ++ t) = t := by
  unfold stripHexPfx
  rw [String.data_append]
  show String.mk (stripPfxChars ('0' :: 'x' :: t.data)) = t
  rw [show stripPfxChars ('0' :: 'x' :: t.data) = t.data from rfl]

theorem bytesToHex_data (bs : List Nat) :
    (bytesToHex bs).data = (bs.map byteToHexChars).flatten := rfl

theorem bytesToHex_length (bs : List Nat) : (bytesToHex bs).length = 2 * bs.length := by
  show ((bs.map byteToHexChars).flatten).length = 2 * bs.length
  induction bs with
  | nil => rfl
  | cons b t ih =>
    simp only [List.map_cons, List.flatten_cons, List.length_append, List.length_cons]
    rw [ih]
    show 2 + 2 * t.length = 2 * (t.length + 1)
    omega

theorem byteToHexChars_all_hex (b : Nat) : (byteToHexChars b).all isHexDigit = true := by
  unfold byteToHexChars
  have h1 : b % 256 / 16 < 16 :=
    Nat.div_lt_of_lt_mul (by have := Nat.mod_lt b (show 0 < 256 by decide); omega)
  have h2 : b % 16 < 16 := Nat.mod_lt _ (by decide)
  simp only [List.all_cons, List.all_nil, Bool.and_eq_true]
  exact ⟨isHexDigit_hexDigitChar _ h1, isHexDigit_hexDigitChar _ h2, trivial⟩

theorem bytesToHex_all_hex (bs : List Nat) : (bytesToHex bs).data.all isHexDigit = true := by
  show ((bs.map byteToHexChars).flatten).all isHexDigit = true
  induction bs with
  | nil => rfl
  | cons b t ih =>
    simp only [List.map_cons, List.flatten_cons, List.all_append, Bool.and_eq_true]
    exact ⟨byteToHexChars_all_hex b, ih⟩

theorem multipleOfTwo_of_even (s : String) (h : s.length % 2 = 0) :
    multipleOfTwoHexValueNormalizer s = s := by
  unfold multipleOfTwoHexValueNormalizer
  rw [if_neg (by rw [beq_iff_eq]; omega)]

theorem stripHexPfx_bytesToHex (bs : List Nat) :
    stripHexPfx (bytesToHex bs) = bytesToHex bs :=
  stripHexPfx_of_all_hex _ (bytesToHex_all_hex bs)

theorem bytesToNat_seeded_v (c : Nat) :
    bytesToNat (toBufferHexStr
      (hexSequenceNormalizer (multipleOfTwoHexValueNormalizer (natToHexStr c)) true)) = c := by
  have hx_hex : (multipleOfTwoHexValueNormalizer (natToHexStr c)).data.all isHexDigit = true :=
    multipleOfTwo_all_hex _ (natToHexStr_all_hex c)
  have hx_even : (multipleOfTwoHexValueNormalizer (natToHexStr c)).length % 2 = 0 :=
    multipleOfTwo_length_even _
  show bytesToNat (toBufferHexStr
    ("0x" ++ stripHexPfx (multipleOfTwoHexValueNormalizer (natToHexStr c)))) = c
  rw [stripHexPfx_of_all_hex _ hx_hex]
  unfold toBufferHexStr
  rw [stripHexPfx_append_0x]
  rw [multipleOfTwo_of_even _ hx_even]
  rw [bytesToNat_hexPairsToBytes _ hx_hex hx_even]
  rw [hexCharsToNat_multipleOfTwo]
  exact hexCharsToNat_natToHexStr c

/-! Claim theorems. -/

/-- Claim C1: the unsigned transaction object of signTransaction should
draw each slot from the corresponding field of the validated request in
both variants.  The Trezor variant instead feeds the request gasPrice
into the gasLimit slot (source line 93); at the example request the
gasLimit slot equals the normalized gasPrice and differs from the
normalized gasLimit, while the remaining slots and the Ledger variant
agree with the claim. -/
theorem trezor_gasLimit_slot_fed_gasPrice :
    (trezorUnsignedTxArgs exampleRequest).gasLimit =
      hexSequenceNormalizer (multipleOfTwoHexValueNormalizer exampleRequest.gasPrice) true ∧
    (trezorUnsignedTxArgs exampleRequest).gasLimit ≠
      hexSequenceNormalizer (multipleOfTwoHexValueNormalizer exampleRequest.gasLimit) true ∧
    (trezorUnsignedTxArgs exampleRequest).gasPrice =
      hexSequenceNormalizer (multipleOfTwoHexValueNormalizer exampleRequest.gasPrice) true ∧
    (trezorUnsignedTxArgs exampleRequest).nonce =
      hexSequenceNormalizer (multipleOfTwoHexValueNormalizer (natToHexStr exampleRequest.nonce)) true ∧
    (trezorUnsignedTxArgs exampleRequest).value =
      hexSequenceNormalizer (multipleOfTwoHexValueNormalizer exampleRequest.value) true ∧
    (trezorUnsignedTxArgs exampleRequest).data = hexSequenceNormalizer exampleRequest.inputData true ∧
    (ledgerUnsignedTxArgs exampleRequest).gasLimit =
      hexSequenceNormalizer (multipleOfTwoHexValueNormalizer exampleRequest.gasLimit) true := by
  refine ⟨rfl, by decide, rfl, rfl, rfl, rfl, rfl⟩

/-- Claim C2: the recovery value encoded in the assembled transaction
should satisfy the EIP-155 shape v in two c plus 35 or 36.  Both
current variants hand the prefixed component string to the Node hex
buffer constructor, which truncates at the x of the 0x marker, so the
merged v slot is the empty buffer, decoding to 0 instead of 37 or 38 at
the example request even though the backend returned exactly the
chain-adjusted value 37. -/
theorem signTransaction_v_slot_emptied_by_hex_buffer :
    (trezorMergeSignature (mkEthereumTx (trezorUnsignedTxArgs exampleRequest)) exampleTrezorSig).v = [] ∧
    bytesToNat (trezorMergeSignature (mkEthereumTx (trezorUnsignedTxArgs exampleRequest)) exampleTrezorSig).v = 0 ∧
    ¬(bytesToNat (trezorMergeSignature (mkEthereumTx (trezorUnsignedTxArgs exampleRequest)) exampleTrezorSig).v =
        2 * exampleRequest.chainId + 35 ∨
      bytesToNat (trezorMergeSignature (mkEthereumTx (trezorUnsignedTxArgs exampleRequest)) exampleTrezorSig).v =
        2 * exampleRequest.chainId + 36) ∧
    exampleTrezorSig.v = 2 * exampleRequest.chainId + 35 ∧
    (ledgerMergeSignature (mkEthereumTx (ledgerUnsignedTxArgs exampleRequest)) exampleLedgerSig).v = [] ∧
    bytesToNat (toBufferHexStr (hexSequenceNormalizer exampleLedgerSig.v false)) =
      2 * exampleRequest.chainId + 35 := by
  refine ⟨by decide, by decide, by decide, by decide, by decide, by decide⟩

/-- Claim C3 counterexample: verifyMessage is claimed never to throw,
converting every failure into false; but in both variants the input
validators run before the try block, so a validator rejection
propagates as a thrown error instead of the boolean false. -/
theorem verifyMessage_validation_failure_propagates :
    trezorVerifyMessage (.error ⟨"address validation failed"⟩) (.ok ("hello", "deadbeef")) (.ok true) =
      .error ⟨"address validation failed"⟩ ∧
    trezorVerifyMessage (.error ⟨"address validation failed"⟩) (.ok ("hello", "deadbeef")) (.ok true) ≠
      .ok false ∧
    ledgerVerifyMessage (.error ⟨"public key validation failed"⟩) (.ok ("hello", "deadbeef")) (.ok true) =
      .error ⟨"public key validation failed"⟩ :=
  ⟨rfl, by decide, rfl⟩

/-- Claim C3 as amended: once the input validators have accepted, a
failure of the backend verification call is converted into the boolean
false rather than propagating, and neither variant can return an error
from that point on. -/
theorem verifyMessage_backend_failure_to_false (mv : String × String)
    (b c : Except JsError Bool) :
    trezorVerifyMessage (.ok ()) (.ok mv) b = .ok (match b with | .ok r => r | .error _ => false) ∧
    (∀ e, trezorVerifyMessage (.ok ()) (.ok mv) b ≠ .error e) ∧
    ledgerVerifyMessage (.ok ()) (.ok mv) c = .ok (verifyMessageSignature c) ∧
    (∀ e, ledgerVerifyMessage (.ok ()) (.ok mv) c ≠ .error e) := by
  refine ⟨?_, ?_, rfl, fun e h => Except.noConfusion h⟩
  · cases b <;> rfl
  · cases b <;> exact fun e h => Except.noConfusion h

/-- Claim C4: when the backend failure carries the designated
cancellation signal, signTransaction and signMessage rethrow the stable
cancellation error holding exactly the fixed user-facing message, never
the generic context-carrying error, and the classification happens at
the single catch site of each call. -/
theorem sign_cancellation_classified_stable (req : ValidatedTx) (path : String)
    (o : SignMessageObj) (toSign : String) :
    trezorSignTransaction req path (.error ⟨STD_ERRORS_CANCEL_TX_SIGN⟩) =
      .error (.cancelled messagesUserSignTxCancel) ∧
    trezorSignMessage (.object o) (.ok ()) (.ok toSign) (.error ⟨STD_ERRORS_CANCEL_TX_SIGN⟩) =
      .error (.cancelled messagesUserSignTxCancel) ∧
    ledgerSignTransaction req (.error ⟨LEDGER_CANCEL_SIGNAL⟩) =
      .error (.cancelled messagesUserSignTxCancel) ∧
    ledgerSignMessage (.object o) (.ok ()) (.ok toSign) (.error ⟨LEDGER_CANCEL_SIGNAL⟩) =
      .error (.cancelled messagesUserSignTxCancel) ∧
    ∀ m, (SignError.cancelled messagesUserSignTxCancel) ≠ (SignError.generic m) :=
  ⟨rfl, rfl, rfl, rfl, fun _ h => SignError.noConfusion h⟩

/-- Claim C5: for every validated request, both signTransaction
variants seed the unsigned transaction with the placeholder SIGNATURE
values in the r and s slots (the hex-packed zero byte, decoding to 0)
and the hex encoding of the chain id in the v slot, whose byte decoding
recovers the chain id exactly. -/
theorem unsigned_tx_signature_slots_seeded (req : ValidatedTx) :
    (trezorUnsignedTxArgs req).r = seededSigSlot SIGNATURE_R ∧
    (trezorUnsignedTxArgs req).s = seededSigSlot SIGNATURE_S ∧
    seededSigSlot SIGNATURE_R = "0x00" ∧
    seededSigSlot SIGNATURE_S = "0x00" ∧
    (trezorUnsignedTxArgs req).v =
      hexSequenceNormalizer (multipleOfTwoHexValueNormalizer (natToHexStr req.chainId)) true ∧
    bytesToNat (mkEthereumTx (trezorUnsignedTxArgs req)).v = req.chainId ∧
    bytesToNat (mkEthereumTx (trezorUnsignedTxArgs req)).r = 0 ∧
    bytesToNat (mkEthereumTx (trezorUnsignedTxArgs req)).s = 0 ∧
    (ledgerUnsignedTxArgs req).r = seededSigSlot SIGNATURE_R ∧
    (ledgerUnsignedTxArgs req).s = seededSigSlot SIGNATURE_S ∧
    (ledgerUnsignedTxArgs req).v =
      hexSequenceNormalizer (multipleOfTwoHexValueNormalizer (natToHexStr req.chainId)) true ∧
    bytesToNat (mkEthereumTx (ledgerUnsignedTxArgs req)).v = req.chainId := by
  refine ⟨rfl, rfl, by decide, by decide, rfl, bytesToNat_seeded_v req.chainId,
    ?_, ?_, rfl, rfl, rfl, bytesToNat_seeded_v req.chainId⟩
  · rw [show (mkEthereumTx (trezorUnsignedTxArgs req)).r = toBufferHexStr (trezorUnsignedTxArgs req).r from rfl,
      show (trezorUnsignedTxArgs req).r = seededSigSlot SIGNATURE_R from rfl]
    decide
  · rw [show (mkEthereumTx (trezorUnsignedTxArgs req)).s = toBufferHexStr (trezorUnsignedTxArgs req).s from rfl,
      show (trezorUnsignedTxArgs req).s = seededSigSlot SIGNATURE_S from rfl]
    decide

/-- Claim C6: every successful result of the two signTransaction and
the two signMessage variants is a hex string carrying the 0x marker
followed by an even number of hex digits, the backend components being
shaped as the backend contract states (unprefixed even-length hex
strings, message recovery value 27 or 28). -/
theorem sign_outputs_are_prefixed_even_hex (req : ValidatedTx) (path : String)
    (sigT : TrezorSigComponents) (sigL : LedgerSigComponents)
    (o : SignMessageObj) (toSign : String) (m : String) (sigM : LedgerMsgSigComponents)
    (hm1 : m.data.all isHexDigit = true) (hm2 : m.length % 2 = 0)
    (hr1 : sigM.r.data.all isHexDigit = true) (hr2 : sigM.r.length % 2 = 0)
    (hs1 : sigM.s.data.all isHexDigit = true) (hs2 : sigM.s.length % 2 = 0)
    (hv : sigM.v = 27 ∨ sigM.v = 28) :
    (∃ t, trezorSignTransaction req path (.ok sigT) = .ok ("0x" ++ t) ∧
      t.length % 2 = 0 ∧ t.data.all isHexDigit = true) ∧
    (∃ t, ledgerSignTransaction req (.ok sigL) = .ok ("0x" ++ t) ∧
      t.length % 2 = 0 ∧ t.data.all isHexDigit = true) ∧
    (∃ t, trezorSignMessage (.object o) (.ok ()) (.ok toSign) (.ok m) = .ok ("0x" ++ t) ∧
      t.length % 2 = 0 ∧ t.data.all isHexDigit = true) ∧
    (∃ t, ledgerSignMessage (.object o) (.ok ()) (.ok toSign) (.ok sigM) = .ok ("0x" ++ t) ∧
      t.length % 2 = 0 ∧ t.data.all isHexDigit = true) := by
  refine ⟨⟨bytesToHex (trezorMergeSignature (mkEthereumTx (trezorUnsignedTxArgs req)) sigT).serialize,
      ?_, ?_, bytesToHex_all_hex _⟩,
    ⟨bytesToHex (ledgerMergeSignature (mkEthereumTx (ledgerUnsignedTxArgs req)) sigL).serialize,
      ?_, ?_, bytesToHex_all_hex _⟩,
    ⟨m, ?_, hm2, hm1⟩,
    ⟨sigM.r ++ sigM.s ++ natToHexStr sigM.v, ?_, ?_, ?_⟩⟩
  · show Except.ok (hexSequenceNormalizer
      (bytesToHex (trezorMergeSignature (mkEthereumTx (trezorUnsignedTxArgs req)) sigT).serialize) true) = _
    rw [show ∀ s, hexSequenceNormalizer s true = "0x" ++ stripHexPfx s from fun _ => rfl]
    rw [stripHexPfx_bytesToHex]
  · rw [bytesToHex_length]; omega
  · show Except.ok (hexSequenceNormalizer
      (bytesToHex (ledgerMergeSignature (mkEthereumTx (ledgerUnsignedTxArgs req)) sigL).serialize) true) = _
    rw [show ∀ s, hexSequenceNormalizer s true = "0x" ++ stripHexPfx s from fun _ => rfl]
    rw [stripHexPfx_bytesToHex]
  · rw [bytesToHex_length]; omega
  · show Except.ok (hexSequenceNormalizer m true) = _
    rw [show ∀ s, hexSequenceNormalizer s true = "0x" ++ stripHexPfx s from fun _ => rfl]
    rw [stripHexPfx_of_all_hex m hm1]
  · show Except.ok (hexSequenceNormalizer (sigM.r ++ sigM.s ++ natToHexStr sigM.v) true) = _
    rw [show ∀ s, hexSequenceNormalizer s true = "0x" ++ stripHexPfx s from fun _ => rfl]
    rw [stripHexPfx_of_all_hex]
    rw [String.data_append, String.data_append, List.all_append, List.all_append]
    rw [hr1, hs1, natToHexStr_all_hex]
    rfl
  · rw [String.length_append, String.length_append]
    rcases hv with hv | hv <;> rw [hv]
    · rw [show (natToHexStr 27).length = 2 from rfl]; omega
    · rw [show (natToHexStr 28).length = 2 from rfl]; omega
  · rw [String.data_append, String.data_append, List.all_append, List.all_append]
    rw [hr1, hs1, natToHexStr_all_hex]
    rfl

/-- Claim C6 witness: the output-shape theorem applied at the example
request, path, signature components and an even-length hex message. -/
theorem sign_outputs_are_prefixed_even_hex_witness :
    (("deadbeef" : String).data.all isHexDigit = true ∧
      ("deadbeef" : String).length % 2 = 0 ∧
      exampleLedgerMsgSig.r.data.all isHexDigit = true ∧
      exampleLedgerMsgSig.r.length % 2 = 0 ∧
      exampleLedgerMsgSig.s.data.all isHexDigit = true ∧
      exampleLedgerMsgSig.s.length % 2 = 0 ∧
      (exampleLedgerMsgSig.v = 27 ∨ exampleLedgerMsgSig.v = 28)) ∧
    ((∃ t, trezorSignTransaction exampleRequest examplePath (.ok exampleTrezorSig) = .ok ("0x" ++ t) ∧
      t.length % 2 = 0 ∧ t.data.all isHexDigit = true) ∧
    (∃ t, ledgerSignTransaction exampleRequest (.ok exampleLedgerSig) = .ok ("0x" ++ t) ∧
      t.length % 2 = 0 ∧ t.data.all isHexDigit = true) ∧
    (∃ t, trezorSignMessage (.object exampleSignMessageObj) (.ok ()) (.ok "hello") (.ok "deadbeef") = .ok ("0x" ++ t) ∧
      t.length % 2 = 0 ∧ t.data.all isHexDigit = true) ∧
    (∃ t, ledgerSignMessage (.object exampleSignMessageObj) (.ok ()) (.ok "hello") (.ok exampleLedgerMsgSig) = .ok ("0x" ++ t) ∧
      t.length % 2 = 0 ∧ t.data.all isHexDigit = true)) :=
  ⟨⟨by decide, by decide, by decide, by decide, by decide, by decide, Or.inr (by decide)⟩,
   sign_outputs_are_prefixed_even_hex exampleRequest examplePath exampleTrezorSig
     exampleLedgerSig exampleSignMessageObj "hello" "deadbeef" exampleLedgerMsgSig
     (by decide) (by decide) (by decide) (by decide) (by decide) (by decide)
     (Or.inr (by decide))⟩

/-- Claim C7 counterexample: the generic error of the current Ledger
signTransaction is claimed to wrap a dump of the outgoing signing
payload; at the example request it wraps the dump of the incoming
transaction request object, and the outgoing payload (the serialized
unsigned transaction hex sent to the device) does not occur anywhere in
the surfaced message. -/
theorem ledger_generic_error_omits_outgoing_payload :
    ledgerSignTransaction exampleRequest (.error ⟨"device locked"⟩) =
      .error (.generic (messagesUserSignTxGenericError ++ ": " ++
        transactionObjectToErrorString exampleRequest ++ " " ++ "device locked")) ∧
    containsSeq (messagesUserSignTxGenericError ++ ": " ++
        transactionObjectToErrorString exampleRequest ++ " " ++ "device locked").data
      (transactionObjectToErrorString exampleRequest).data = true ∧
    containsSeq (messagesUserSignTxGenericError ++ ": " ++
        transactionObjectToErrorString exampleRequest ++ " " ++ "device locked").data
      (ledgerOutgoingTxHex exampleRequest).data = false :=
  ⟨by decide, by decide, by decide⟩

/-- Claim C7 as amended: on a non-cancellation backend failure the
Trezor variant wraps the original message together with the dump of the
outgoing device payload, while the Ledger variant wraps the dump of the
incoming transaction request object instead of the outgoing payload. -/
theorem generic_error_context_per_backend (req : ValidatedTx) (path : String) (e : JsError)
    (h1 : e.message ≠ STD_ERRORS_CANCEL_TX_SIGN) (h2 : e.message ≠ LEDGER_CANCEL_SIGNAL) :
    trezorSignTransaction req path (.error e) =
      .error (.generic (messagesUserSignTxGenericError ++ ": " ++
        trezorPayloadToErrorString (trezorSignTxPayload req path) ++ " " ++ e.message)) ∧
    ledgerSignTransaction req (.error e) =
      .error (.generic (messagesUserSignTxGenericError ++ ": " ++
        transactionObjectToErrorString req ++ " " ++ e.message)) := by
  constructor
  · show (if (e.message == STD_ERRORS_CANCEL_TX_SIGN) = true then _ else _) = _
    rw [if_neg (by simpa [beq_iff_eq] using h1)]
  · show handleLedgerConnectionError e _ = _
    unfold handleLedgerConnectionError
    rw [if_neg (by simpa [beq_iff_eq] using h2)]

/-- Claim C7 amended witness: the generic context theorem applied to a
concrete non-cancellation backend error at the example request. -/
theorem generic_error_context_per_backend_witness :
    (("device locked" : String) ≠ STD_ERRORS_CANCEL_TX_SIGN ∧
      ("device locked" : String) ≠ LEDGER_CANCEL_SIGNAL) ∧
    (trezorSignTransaction exampleRequest examplePath (.error ⟨"device locked"⟩) =
      .error (.generic (messagesUserSignTxGenericError ++ ": " ++
        trezorPayloadToErrorString (trezorSignTxPayload exampleRequest examplePath) ++ " " ++ "device locked")) ∧
     ledgerSignTransaction exampleRequest (.error ⟨"device locked"⟩) =
      .error (.generic (messagesUserSignTxGenericError ++ ": " ++
        transactionObjectToErrorString exampleRequest ++ " " ++ "device locked"))) :=
  ⟨⟨by decide, by decide⟩,
   generic_error_context_per_backend exampleRequest examplePath ⟨"device locked"⟩
     (by decide) (by decide)⟩

/-- Claim C8: for a validated request whose destination is not the
empty string, the Trezor device payload carries a destination exactly
when the request has one, stripped of its 0x marker, and the Ledger
unsigned transaction carries a destination exactly when the request has
one. -/
theorem destination_included_iff_present (req : ValidatedTx) (path : String)
    (h : req.«to» ≠ some "") :
    (trezorSignTxPayload req path).«to» = req.«to».map (fun t => addressNormalizer t false) ∧
    (ledgerUnsignedTxArgs req).«to» = req.«to».map (fun t => addressNormalizer t true) := by
  have hcase : ∀ (t : String), req.«to» = some t → t.isEmpty = false := by
    intro t ht
    cases hemp : t.isEmpty
    · rfl
    · exfalso
      have hnil : t = "" := (String.isEmpty_iff t).mp hemp
      rw [hnil] at ht
      exact h ht
  constructor
  · show (match req.«to» with
      | some t => if t.isEmpty then none else some (addressNormalizer t false)
      | none => none) = req.«to».map fun t => addressNormalizer t false
    cases hto : req.«to» with
    | none => rfl
    | some t =>
      show (if t.isEmpty = true then none else some (addressNormalizer t false)) =
        Option.map (fun t => addressNormalizer t false) (some t)
      rw [hcase t hto]
      rfl
  · show (match req.«to» with
      | some t => if t.isEmpty then none else some (addressNormalizer t true)
      | none => none) = req.«to».map fun t => addressNormalizer t true
    cases hto : req.«to» with
    | none => rfl
    | some t =>
      show (if t.isEmpty = true then none else some (addressNormalizer t true)) =
        Option.map (fun t => addressNormalizer t true) (some t)
      rw [hcase t hto]
      rfl

/-- Claim C8 witness: the destination theorem applied at the example
request, whose destination is a concrete nonempty address. -/
theorem destination_included_iff_present_witness :
    exampleRequest.«to» ≠ some "" ∧
    ((trezorSignTxPayload exampleRequest examplePath).«to» =
      exampleRequest.«to».map (fun t => addressNormalizer t false) ∧
     (ledgerUnsignedTxArgs exampleRequest).«to» =
      exampleRequest.«to».map (fun t => addressNormalizer t true)) :=
  ⟨by decide, destination_included_iff_present exampleRequest examplePath (by decide)⟩

/-- Claim C9: a null or non-object argument makes both signMessage
variants throw the fixed argument-missing error whatever the validator
and backend outcomes would be, so the rejection precedes validation,
normalization and backend interaction. -/
theorem signMessage_rejects_missing_argument_object (pv : Except JsError Unit)
    (mv : Except JsError String)
    (bT : Except JsError String) (bL : Except JsError LedgerMsgSigComponents) :
    trezorSignMessage .null pv mv bT = .error (.plain messagesSignMessageArgumentMissing) ∧
    trezorSignMessage .nonObject pv mv bT = .error (.plain messagesSignMessageArgumentMissing) ∧
    ledgerSignMessage .null pv mv bL = .error (.plain messagesSignMessageArgumentMissing) ∧
    ledgerSignMessage .nonObject pv mv bL = .error (.plain messagesSignMessageArgumentMissing) :=
  ⟨rfl, rfl, rfl, rfl⟩

/-- Claim C10: the current TypeScript Ledger signTransaction and the
earlier variant build identical unsigned transaction constructor
arguments at corresponding requests, but they do not produce the same
serialized output for the same backend signature components: the
earlier variant stores the 32-byte R and S components and the recovery
value, while the current one stores empty buffers for all three because
the prefixed strings are fed to the Node hex buffer constructor. -/
theorem ledger_variants_agree_on_unsigned_but_not_serialized :
    ledgerUnsignedTxArgsOld exampleRequestBN = ledgerUnsignedTxArgs exampleRequest ∧
    ledgerSignTransactionOld exampleRequestBN (.ok exampleLedgerSig) ≠
      ledgerSignTransaction exampleRequest (.ok exampleLedgerSig) ∧
    (ledgerMergeSignatureOld (mkEthereumTx (ledgerUnsignedTxArgsOld exampleRequestBN)) exampleLedgerSig).r.length = 32 ∧
    (ledgerMergeSignature (mkEthereumTx (ledgerUnsignedTxArgs exampleRequest)) exampleLedgerSig).r = [] ∧
    (ledgerMergeSignature (mkEthereumTx (ledgerUnsignedTxArgs exampleRequest)) exampleLedgerSig).s = [] ∧
    (ledgerMergeSignature (mkEthereumTx (ledgerUnsignedTxArgs exampleRequest)) exampleLedgerSig).v = [] := by
  refine ⟨by decide, by decide, by decide, by decide, by decide, by decide⟩

end Purser
